import Mathlib

/-
Verification of the command dispatch and action-lifecycle engine of the
mqtt-hyundai-kia bridge, as a shallow embedding in Lean 4.

The embedding follows the Python source:
  src/hyundai/api_client.py  (CircuitBreaker, HyundaiAPIClient retry logic,
                              token refresh debounce, action status parsing)
  src/commands/handler.py    (RefreshCommand.parse, ControlCommand.parse,
                              ActionTracker, CommandHandler throttling,
                              queues, poller cleanup)
  src/mqtt/topics.py         (TopicManager.parse_command_topic)

Modelling conventions:
  - wall-clock instants (datetime.utcnow()) are integer/natural numbers of
    seconds and are passed explicitly to each operation that reads the clock;
  - Python exceptions become Except / Option results, and external calls
    whose success is outside the program (remote API, MQTT publish) are
    supplied as explicit outcome oracles;
  - strings are Lean strings; character classification is the ASCII fragment
    of the Python Unicode predicates (all string literals in the source and
    in the claims are ASCII).
-/

/-- Decidable equality for Except, so that concrete parse results can be
checked by the decide tactic. -/
instance {ε α : Type _} [DecidableEq ε] [DecidableEq α] : DecidableEq (Except ε α) := fun x y =>
  match x, y with
  | Except.ok a, Except.ok b =>
      match decEq a b with
      | isTrue h => isTrue (h ▸ rfl)
      | isFalse h => isFalse (fun hc => h (Except.ok.inj hc))
  | Except.error a, Except.error b =>
      match decEq a b with
      | isTrue h => isTrue (h ▸ rfl)
      | isFalse h => isFalse (fun hc => h (Except.error.inj hc))
  | Except.ok _, Except.error _ => isFalse (fun hc => Except.noConfusion hc)
  | Except.error _, Except.ok _ => isFalse (fun hc => Except.noConfusion hc)

/-! ## CircuitBreaker (api_client.py lines 31-80) -/

inductive CBState where
  | CLOSED
  | OPEN
  | HALF_OPEN
deriving DecidableEq, Repr

structure CircuitBreaker where
  failure_threshold : Nat := 5
  timeout : Int := 60
  failure_count : Nat := 0
  state : CBState := CBState.CLOSED
  last_failure_time : Option Int := none
deriving DecidableEq, Repr

/-- CircuitBreaker.can_execute: the source reads datetime.utcnow(), here the
instant `now`; it returns the admission decision and (since it may mutate
self.state) the updated breaker. -/
def CircuitBreaker.can_execute (cb : CircuitBreaker) (now : Int) : Bool × CircuitBreaker :=
  if cb.state = CBState.CLOSED then
    (true, cb)
  else if cb.state = CBState.OPEN then
    match cb.last_failure_time with
    | some t =>
        if now - t > cb.timeout then
          (true, { cb with state := CBState.HALF_OPEN })
        else
          (false, cb)
    | none => (false, cb)
  else
    -- HALF_OPEN state
    (true, cb)

/-- CircuitBreaker.record_success. -/
def CircuitBreaker.record_success (cb : CircuitBreaker) : CircuitBreaker :=
  { cb with failure_count := 0, state := CBState.CLOSED }

/-- CircuitBreaker.record_failure at instant `now`. -/
def CircuitBreaker.record_failure (cb : CircuitBreaker) (now : Int) : CircuitBreaker :=
  let fc := cb.failure_count + 1
  { cb with
      failure_count := fc
      last_failure_time := some now
      state := if fc ≥ cb.failure_threshold then CBState.OPEN else cb.state }

/-- A breaker that has gone OPEN with its last failure at instant 0
(threshold and timeout at their defaults 5 and 60). -/
def cbOpenAt0 : CircuitBreaker :=
  { failure_count := 5, state := CBState.OPEN, last_failure_time := some 0 }

/-! ## Token refresh debounce (api_client.py lines 106-120) -/

/-- Python timedelta.seconds of a non-negative duration of `d` whole seconds:
the seconds component after whole days are split off, i.e. d mod 86400.
The source computes (datetime.utcnow() - self._last_refresh_time).seconds. -/
def timedeltaSeconds (d : Nat) : Nat := d % 86400

structure TokenState where
  last_refresh_time : Option Nat
deriving DecidableEq, Repr

/-- HyundaiAPIClient._refresh_token_safely at instant `now` (the lock is
irrelevant in this sequential model).  Returns whether a re-authentication
(check_and_refresh_token) was performed, and the updated state. -/
def refresh_token_safely (st : TokenState) (now : Nat) : Bool × TokenState :=
  match st.last_refresh_time with
  | some t =>
      if timedeltaSeconds (now - t) < 30 then
        (false, st)
      else
        (true, { last_refresh_time := some now })
  | none => (true, { last_refresh_time := some now })

/-! ## Retry-on-expired-credential control flow (api_client.py lines 173-207)

HyundaiAPIClient.refresh_cached (and each of refresh_force, refresh_smart,
lock_vehicle, ..., check_action_status, which share the identical except
block) reacts to an exception classified as token-expired by refreshing the
token and re-invoking ITSELF; any other exception records a circuit-breaker
failure and raises RefreshError.  The outcome of each successive attempt of
the underlying remote call is supplied as an oracle list; the function
returns the overall outcome together with the number of attempts performed.
The circuit-breaker gate at the top of the method is not consumed along the
token-expired path (record_failure is only reached for non-token errors), so
it is elided here. -/

inductive AttemptResult where
  | ok
  | tokenExpired
  | otherError
deriving DecidableEq, Repr

inductive RefreshOutcome where
  | success
  | refreshError
deriving DecidableEq, Repr

def refreshCachedRun : List AttemptResult → RefreshOutcome × Nat
  | [] => (RefreshOutcome.refreshError, 0)
  | AttemptResult.ok :: _ => (RefreshOutcome.success, 1)
  | AttemptResult.otherError :: _ => (RefreshOutcome.refreshError, 1)
  | AttemptResult.tokenExpired :: rest =>
      let r := refreshCachedRun rest
      (r.1, r.2 + 1)

/-! ## Action status parsing (api_client.py lines 763-812, string branch)

A Python str has no attribute `name`, so a string response always takes the
isinstance(status_response, str) branch. -/

/-- Python's substring containment test (needle in hay) on character lists. -/
def substrOccurs : List Char → List Char → Bool
  | needle, [] => needle.isEmpty
  | needle, c :: rest => needle.isPrefixOf (c :: rest) || substrOccurs needle rest

/-- HyundaiAPIClient._parse_action_status restricted to string responses. -/
def parse_action_status (status_response : String) : String :=
  let status_upper := List.map Char.toUpper status_response.data
  if (substrOccurs "SUCCESS".data status_upper
      || substrOccurs "COMPLETE".data status_upper) then "SUCCESS"
  else if (substrOccurs "FAIL".data status_upper
      || substrOccurs "ERROR".data status_upper) then "FAILED"
  else if (substrOccurs "PENDING".data status_upper
      || substrOccurs "PROCESSING".data status_upper) then "PENDING"
  else if (substrOccurs "TIMEOUT".data status_upper) then "TIMEOUT"
  else "UNKNOWN"

/-- Case-insensitive substring occurrence: an (upper-case ASCII) fragment
occurs in `s` uppercased. -/
def ciOccurs (frag s : String) : Bool :=
  substrOccurs frag.data (List.map Char.toUpper s.data)

/-! ## Refresh command parsing (handler.py lines 202-270) -/

/-- Worker for Python str.split on a one-character separator. -/
def pySplitAux (sep : Char) (acc : List Char) : List Char → List (List Char)
  | [] => [acc.reverse]
  | c :: rest =>
      if c = sep then acc.reverse :: pySplitAux sep [] rest
      else pySplitAux sep (c :: acc) rest

/-- Python str.split(sep) for a one-character separator: empty fields are
kept, and splitting the empty string gives one empty field. -/
def pySplit (sep : Char) (cs : List Char) : List (List Char) :=
  pySplitAux sep [] cs

/-- Python str.split(sep, 1) for a one-character separator that occurs in the
string: the part before the first occurrence and everything after it. -/
def splitOnce (sep : Char) : List Char → List Char × List Char
  | [] => ([], [])
  | c :: rest =>
      if c = sep then ([], rest)
      else
        let r := splitOnce sep rest
        (c :: r.1, r.2)

/-- Python str.strip() (ASCII whitespace). -/
def pyStrip (cs : List Char) : List Char :=
  ((cs.dropWhile Char.isWhitespace).reverse.dropWhile Char.isWhitespace).reverse

/-- Acceptor for the digit part of a Python int literal: digits with single
underscores permitted only between digits (int("1_0") is 10, int("1__0") and
int("1_") raise ValueError). -/
def pyIntTail : List Char → Bool
  | [] => true
  | '_' :: rest =>
      match rest with
      | c :: rest2 => c.isDigit && pyIntTail rest2
      | [] => false
  | c :: rest => c.isDigit && pyIntTail rest

/-- Acceptor for digits-with-underscores, at least one digit, starting with a
digit. -/
def pyIntDigits : List Char → Bool
  | [] => false
  | c :: rest => c.isDigit && pyIntTail rest

/-- Numeric value of a digit/underscore list (underscores skipped). -/
def digitsToNat (cs : List Char) : Nat :=
  cs.foldl (fun acc c => if c.isDigit then acc * 10 + (c.toNat - '0'.toNat) else acc) 0

/-- Python int(s) on an ASCII string: surrounding whitespace ignored, optional
sign, digits with underscores between digits; none models ValueError. -/
def pyInt (s : List Char) : Option Int :=
  match pyStrip s with
  | '+' :: rest => if pyIntDigits rest then some (digitsToNat rest) else none
  | '-' :: rest => if pyIntDigits rest then some (-(digitsToNat rest : Int)) else none
  | cs => if pyIntDigits cs then some (digitsToNat cs) else none

/-- Python str.isalnum on an ASCII character list: non-empty and all
alphanumeric. -/
def pyIsAlnum (cs : List Char) : Bool :=
  !cs.isEmpty && cs.all Char.isAlphanum

structure RefreshCommand where
  command_type : String
  vehicle_id : String
  max_age_seconds : Option Int
deriving DecidableEq, Repr

/-- Final steps of RefreshCommand.parse (handler.py lines 258-270): command
type membership, the smart/max_age coupling, and construction. -/
def RefreshCommand.finishParse (cmd_type vehicle_id : List Char) (max_age : Option Int) :
    Except String RefreshCommand :=
  if cmd_type ≠ "cached".data ∧ cmd_type ≠ "force".data ∧ cmd_type ≠ "smart".data then
    Except.error "Invalid command type"
  else if cmd_type = "smart".data ∧ max_age = none then
    Except.error "Smart command requires max_age parameter"
  else
    Except.ok { command_type := ⟨cmd_type⟩, vehicle_id := ⟨vehicle_id⟩,
                max_age_seconds := max_age }

/-- RefreshCommand.parse (handler.py lines 210-270).  Except.error models a
raised CommandError. -/
def RefreshCommand.parse (topic payload : String) : Except String RefreshCommand :=
  if topic = "" then Except.error "Invalid topic: must be a non-empty string"
  else if payload = "" then Except.error "Invalid payload: must be a non-empty string"
  else
    let parts := pySplit '/' topic.data
    match parts[1]? with
    | none => Except.error "Could not extract vehicle_id from topic"
    | some vehicle_id =>
      if vehicle_id = [] then Except.error "Could not extract vehicle_id from topic"
      else if !(pyIsAlnum (vehicle_id.filter (fun c => c != '_' && c != '-'))) then
        Except.error "Invalid vehicle_id format"
      else
        let payloadCs := pyStrip payload.data
        if payloadCs.any (fun c => c = ':') then
          -- payload.split(":", 1)
          let pieces := splitOnce ':' payloadCs
          let cmd_type := pyStrip pieces.1
          let param := pieces.2
          if cmd_type = "smart".data then
            match pyInt param with
            | none => Except.error "Invalid max_age parameter for smart command"
            | some max_age =>
              if max_age < 1 ∨ max_age > 604800 then
                Except.error "Invalid max_age value"
              else
                RefreshCommand.finishParse cmd_type vehicle_id (some max_age)
          else
            RefreshCommand.finishParse cmd_type vehicle_id none
        else
          RefreshCommand.finishParse payloadCs vehicle_id none

/-! ## Throttling and the refresh dispatch loop (handler.py lines 278-360) -/

/-- Python dict assignment d[v] = t on an association list. -/
def setTime (m : List (String × Nat)) (v : String) (t : Nat) : List (String × Nat) :=
  match m with
  | [] => [(v, t)]
  | (k, u) :: rest => if k = v then (v, t) :: rest else (k, u) :: setTime rest v t

structure ThrottleState where
  last_command_time : List (String × Nat)
  min_command_interval : Nat := 5
deriving DecidableEq, Repr

inductive HandleOutcome where
  | throttled
  | published
  | errorPublished
deriving DecidableEq, Repr

structure HandleResult where
  state : ThrottleState
  remoteCalled : Bool
  outcome : HandleOutcome
deriving DecidableEq, Repr

/-- Accepted branch of CommandHandler.handle_command (lines 303-346): record
the vehicle in the throttle ledger, then run the refresh strategy; on success
publish data and a success status, on an exception publish an error status.
The three strategies (cached/force/smart) share this shape, so the remote
call is the oracle `refreshOk`.  The except branch does not touch the
ledger. -/
def handleAccept (st : ThrottleState) (v : String) (now : Nat) (refreshOk : Bool) :
    HandleResult :=
  let st := { st with last_command_time := setTime st.last_command_time v now }
  if refreshOk then
    { state := st, remoteCalled := true, outcome := HandleOutcome.published }
  else
    { state := st, remoteCalled := true, outcome := HandleOutcome.errorPublished }

/-- CommandHandler.handle_command (lines 287-346) for a command on vehicle
`v` arriving at instant `now`.  In the source elapsed is
(current_time - last).total_seconds(); with a monotone clock this is the
natural subtraction now - t. -/
def handle_command (st : ThrottleState) (v : String) (now : Nat) (refreshOk : Bool) :
    HandleResult :=
  match List.lookup v st.last_command_time with
  | some t =>
      if now - t < st.min_command_interval then
        { state := st, remoteCalled := false, outcome := HandleOutcome.throttled }
      else
        handleAccept st v now refreshOk
  | none => handleAccept st v now refreshOk

structure CommandQueueState where
  queue : List RefreshCommand
  throttle : ThrottleState
deriving DecidableEq, Repr

/-- CommandHandler.enqueue_command (lines 348-360): parse, then put on the
refresh queue; a CommandError is logged and the state is unchanged.  No
throttle check happens here. -/
def enqueue_command (st : CommandQueueState) (topic payload : String) : CommandQueueState :=
  match RefreshCommand.parse topic payload with
  | Except.ok cmd => { st with queue := st.queue ++ [cmd] }
  | Except.error _ => st

/-! ## ActionTracker (handler.py lines 164-197) -/

def terminalStatuses : List String := ["SUCCESS", "FAILED", "TIMEOUT", "UNKNOWN"]

structure ActionTracker where
  action_id : String
  request_id : String
  command_type : String
  vehicle_id : String
  started_at : Nat
  last_status : Option String := none
  completed_at : Option Nat := none
  error_message : Option String := none
  status_history : List (Nat × String) := []
deriving DecidableEq, Repr

/-- ActionTracker.update_status (lines 177-184) at instant `now`. -/
def ActionTracker.update_status (t : ActionTracker) (now : Nat) (status : String)
    (error : Option String) : ActionTracker :=
  let t := { t with
    last_status := some status
    status_history := t.status_history ++ [(now, status)] }
  let t :=
    match error with
    | some e => { t with error_message := some e }
    | none => t
  if status ∈ terminalStatuses then { t with completed_at := some now } else t

/-- ActionTracker construction in handle_control_command (lines 415-422). -/
def mkActionTracker (action_id request_id command_type vehicle_id : String) (now : Nat) :
    ActionTracker :=
  { action_id := action_id
    request_id := request_id
    command_type := command_type
    vehicle_id := vehicle_id
    started_at := now
    last_status := some "PENDING" }

/-! ## Control command parsing and dispatch (handler.py lines 21-161, 381-490;
topics.py lines 119-132) -/

/-- TopicManager.parse_command_topic: needs at least four "/"-segments, the
first equal to base_topic and the third equal to "commands"; yields
(vehicle_id, command_type). -/
def parse_command_topic (base topic : String) : Option (String × String) :=
  match pySplit '/' topic.data with
  | p0 :: p1 :: p2 :: p3 :: _ =>
      if p0 = base.data ∧ p2 = "commands".data then some (⟨p1⟩, ⟨p3⟩) else none
  | _ => none

/-- Values of a decoded JSON object, as far as the handlers inspect them. -/
inductive PyValue where
  | str (s : String)
  | int (n : Int)
  | bool (b : Bool)
deriving DecidableEq, Repr

structure ControlCommand where
  command_type : String
  vehicle_id : String
  payload : List (String × PyValue)
deriving DecidableEq, Repr

/-- ControlCommand.parse (lines 29-57).  JSON decoding is external, so the
decoded payload is supplied directly; none models json.JSONDecodeError.
Note that no field of the payload (in particular `action`) is inspected
here. -/
def ControlCommand.parse (base topic : String)
    (payload : Option (List (String × PyValue))) : Except String ControlCommand :=
  match parse_command_topic base topic with
  | none => Except.error "Invalid command topic"
  | some (vehicle_id, command_type) =>
    match payload with
    | none => Except.error "Invalid JSON payload"
    | some payload_dict =>
      if command_type ∈ ["lock", "climate", "windows", "charge_port", "charging_current"] then
        Except.ok { command_type := command_type, vehicle_id := vehicle_id,
                    payload := payload_dict }
      else
        Except.error "Invalid command type"

structure LockCommand where
  action : String
  vehicle_id : String
deriving DecidableEq, Repr

/-- LockCommand.from_control_command (lines 66-71): payload.get("action") must
be "lock" or "unlock"; a missing or non-string action is not in that list and
raises CommandError. -/
def LockCommand.from_control_command (cmd : ControlCommand) : Except String LockCommand :=
  match List.lookup "action" cmd.payload with
  | some (PyValue.str a) =>
      if a = "lock" ∨ a = "unlock" then
        Except.ok { action := a, vehicle_id := cmd.vehicle_id }
      else Except.error "Invalid lock action"
  | _ => Except.error "Invalid lock action"

structure ClimateCommand where
  action : String
  vehicle_id : String
deriving DecidableEq, Repr

/-- ClimateCommand.from_control_command (lines 89-107): the action must be
"start_climate" or "stop_climate"; the optional temperature/seat/steering
fields are copied without validation and are elided here. -/
def ClimateCommand.from_control_command (cmd : ControlCommand) : Except String ClimateCommand :=
  match List.lookup "action" cmd.payload with
  | some (PyValue.str a) =>
      if a = "start_climate" ∨ a = "stop_climate" then
        Except.ok { action := a, vehicle_id := cmd.vehicle_id }
      else Except.error "Invalid climate action"
  | _ => Except.error "Invalid climate action"

structure WindowsCommand where
  vehicle_id : String
deriving DecidableEq, Repr

/-- One window value is acceptable when absent or an integer in {0, 1, 2}. -/
def windowValueOk : Option PyValue → Bool
  | none => true
  | some (PyValue.int n) => n = 0 || n = 1 || n = 2
  | some _ => false

/-- WindowsCommand.from_control_command (lines 119-133): each present corner
value must be in {0, 1, 2}; there is no action field. -/
def WindowsCommand.from_control_command (cmd : ControlCommand) : Except String WindowsCommand :=
  if windowValueOk (List.lookup "front_left" cmd.payload)
      && windowValueOk (List.lookup "front_right" cmd.payload)
      && windowValueOk (List.lookup "back_left" cmd.payload)
      && windowValueOk (List.lookup "back_right" cmd.payload) then
    Except.ok { vehicle_id := cmd.vehicle_id }
  else Except.error "Invalid window state"

structure ChargePortCommand where
  action : String
  vehicle_id : String
deriving DecidableEq, Repr

/-- ChargePortCommand.from_control_command (lines 142-147). -/
def ChargePortCommand.from_control_command (cmd : ControlCommand) :
    Except String ChargePortCommand :=
  match List.lookup "action" cmd.payload with
  | some (PyValue.str a) =>
      if a = "open" ∨ a = "close" then
        Except.ok { action := a, vehicle_id := cmd.vehicle_id }
      else Except.error "Invalid charge port action"
  | _ => Except.error "Invalid charge port action"

structure ChargingCurrentCommand where
  level : Int
  vehicle_id : String
deriving DecidableEq, Repr

/-- ChargingCurrentCommand.from_control_command (lines 156-161). -/
def ChargingCurrentCommand.from_control_command (cmd : ControlCommand) :
    Except String ChargingCurrentCommand :=
  match List.lookup "level" cmd.payload with
  | some (PyValue.int l) =>
      if l = 1 ∨ l = 2 ∨ l = 3 then
        Except.ok { level := l, vehicle_id := cmd.vehicle_id }
      else Except.error "Invalid charging current level"
  | _ => Except.error "Invalid charging current level"

/-- The remote API capability a control command ends up invoking. -/
inductive ApiCall where
  | lockVehicle (v : String)
  | unlockVehicle (v : String)
  | startClimate (v : String)
  | stopClimate (v : String)
  | setWindows (v : String)
  | openChargePort (v : String)
  | closeChargePort (v : String)
  | setChargingCurrent (v : String) (level : Int)
deriving DecidableEq, Repr

/-- CommandHandler._execute_command (lines 449-490): per-type validation and
dispatch; an Except.error is a CommandError raised before any remote call. -/
def execute_command (cmd : ControlCommand) : Except String ApiCall :=
  if cmd.command_type = "lock" then
    match LockCommand.from_control_command cmd with
    | Except.error e => Except.error e
    | Except.ok lc =>
        if lc.action = "lock" then Except.ok (ApiCall.lockVehicle cmd.vehicle_id)
        else Except.ok (ApiCall.unlockVehicle cmd.vehicle_id)
  else if cmd.command_type = "climate" then
    match ClimateCommand.from_control_command cmd with
    | Except.error e => Except.error e
    | Except.ok cc =>
        if cc.action = "start_climate" then Except.ok (ApiCall.startClimate cmd.vehicle_id)
        else Except.ok (ApiCall.stopClimate cmd.vehicle_id)
  else if cmd.command_type = "windows" then
    match WindowsCommand.from_control_command cmd with
    | Except.error e => Except.error e
    | Except.ok _ => Except.ok (ApiCall.setWindows cmd.vehicle_id)
  else if cmd.command_type = "charge_port" then
    match ChargePortCommand.from_control_command cmd with
    | Except.error e => Except.error e
    | Except.ok pc =>
        if pc.action = "open" then Except.ok (ApiCall.openChargePort cmd.vehicle_id)
        else Except.ok (ApiCall.closeChargePort cmd.vehicle_id)
  else if cmd.command_type = "charging_current" then
    match ChargingCurrentCommand.from_control_command cmd with
    | Except.error e => Except.error e
    | Except.ok cc => Except.ok (ApiCall.setChargingCurrent cmd.vehicle_id cc.level)
  else
    Except.error "Unknown command type"

/-- CommandHandler.enqueue_control_command (lines 381-392): parse, then put on
the control queue; a CommandError is logged and the queue is unchanged. -/
def enqueue_control_command (queue : List ControlCommand) (base topic : String)
    (payload : Option (List (String × PyValue))) : List ControlCommand :=
  match ControlCommand.parse base topic payload with
  | Except.ok cmd => queue ++ [cmd]
  | Except.error _ => queue

/-- Outcome of handle_control_command (lines 394-447) as far as the remote
API is concerned: either the dispatched call reached the API, or the
CommandError raised by _execute_command was caught and published as an error
status. -/
inductive ControlOutcome where
  | apiInvoked (call : ApiCall)
  | rejected (msg : String)
deriving DecidableEq, Repr

def handle_control_command (cmd : ControlCommand) : ControlOutcome :=
  match execute_command cmd with
  | Except.ok call => ControlOutcome.apiInvoked call
  | Except.error e => ControlOutcome.rejected e

/-! ## Action status poller (handler.py lines 492-536) -/

/-- Oracle for the external effects inside _poll_action_status: the result of
check_action_status (an error message, or a final status string), and whether
each publish returns normally.  The follow-up refresh_force failure is caught
and only logged (lines 520-524), so its outcome is irrelevant and carried
only for completeness. -/
structure PollEnv where
  checkStatus : Except String String
  publishFinalOk : Bool
  refreshForceOk : Bool
  publishFailedOk : Bool

inductive PollExit where
  | normal
  | handled
  | reraised
deriving DecidableEq, Repr

/-- CommandHandler._poll_action_status: try block, except branch, and the
finally block that deletes the tracker's action_id from _active_actions.
The registry is a map from action_id to tracker.  When the except-branch
publish itself raises, the exception propagates, but only after the finally
block has run (PollExit.reraised). -/
def poll_action_status (reg : String → Option ActionTracker) (tracker : ActionTracker)
    (now : Nat) (env : PollEnv) :
    (String → Option ActionTracker) × ActionTracker × PollExit :=
  let step : ActionTracker × PollExit :=
    match env.checkStatus with
    | Except.ok final_status =>
        let tracker := tracker.update_status now final_status none
        if env.publishFinalOk then
          (tracker, PollExit.normal)
        else
          let tracker := tracker.update_status now "FAILED" (some "publish failed")
          if env.publishFailedOk then (tracker, PollExit.handled)
          else (tracker, PollExit.reraised)
    | Except.error e =>
        let tracker := tracker.update_status now "FAILED" (some e)
        if env.publishFailedOk then (tracker, PollExit.handled)
        else (tracker, PollExit.reraised)
  (fun k => if k = step.1.action_id then none else reg k, step.1, step.2)

/-! ## Concrete fixtures used by the theorems below -/

/-- An ActionTracker already finalized as SUCCESS at instant 5. -/
def sampleFinishedTracker : ActionTracker :=
  { action_id := "a1", request_id := "r1", command_type := "lock", vehicle_id := "veh1",
    started_at := 0, last_status := some "SUCCESS", completed_at := some 5,
    status_history := [(5, "SUCCESS")] }

/-- A refresh-queue state whose throttle ledger records an accepted command
for veh1 at instant 0. -/
def qstVeh1 : CommandQueueState :=
  { queue := [], throttle := { last_command_time := [("veh1", 0)] } }

def cmdCachedVeh1 : RefreshCommand :=
  { command_type := "cached", vehicle_id := "veh1", max_age_seconds := none }

def cmdSmart300 : RefreshCommand :=
  { command_type := "smart", vehicle_id := "veh1", max_age_seconds := some 300 }

/-- A parsed lock control command whose action value is not in
{lock, unlock}. -/
def cmdLockBadAction : ControlCommand :=
  { command_type := "lock", vehicle_id := "veh1",
    payload := [("action", PyValue.str "frobnicate")] }

/-- A parsed lock control command with no action field at all. -/
def cmdLockNoAction : ControlCommand :=
  { command_type := "lock", vehicle_id := "veh1", payload := [] }

/-! # Theorems -/

/-! ## Helper lemmas -/

theorem update_status_keeps_action_id (t : ActionTracker) (now : Nat) (s : String)
    (e : Option String) : (t.update_status now s e).action_id = t.action_id := by
  cases e <;> simp [ActionTracker.update_status] <;> split_ifs <;> rfl

theorem lookup_setTime_self (m : List (String × Nat)) (v : String) (t : Nat) :
    List.lookup v (setTime m v t) = some t := by
  induction m with
  | nil => simp [setTime, List.lookup]
  | cons p rest ih =>
      obtain ⟨k, u⟩ := p
      by_cases h : k = v
      · subst h; simp [setTime, List.lookup]
      · simp only [setTime, if_neg h, List.lookup]
        have hv : (v == k) = false := by
          simp only [beq_eq_false_iff_ne, ne_eq]
          exact fun hh => h hh.symm
        rw [hv]
        exact ih

/-! ## Claim C1 -/

/-- C1 counterexample: with the remote call failing twice with a
credential-expired error and then succeeding, refresh_cached performs three
attempts (two re-issues) and returns success, whereas the claim allows at
most one re-issue after the single re-authentication and requires the second
credential-expired failure to propagate to the caller. -/
theorem refresh_retry_counterexample :
    refreshCachedRun [AttemptResult.tokenExpired, AttemptResult.tokenExpired, AttemptResult.ok]
      = (RefreshOutcome.success, 3) ∧ ¬(3 ≤ 2) := by decide

/-- C1 (amended): a credential-expired failure makes the operation refresh the
token and recursively re-issue itself, and this repeats for every consecutive
credential-expired failure: after k such failures the operation has performed
k + 1 attempts, succeeding if the next attempt succeeds; a non-credential
failure propagates immediately as RefreshError.  The retry is therefore not
bounded to one attempt: the recursion depth grows with the run of
credential-expired failures. -/
theorem refresh_retry_recursive (k : Nat) :
    refreshCachedRun (List.replicate k AttemptResult.tokenExpired ++ [AttemptResult.ok])
      = (RefreshOutcome.success, k + 1) ∧
    refreshCachedRun (List.replicate k AttemptResult.tokenExpired ++ [AttemptResult.otherError])
      = (RefreshOutcome.refreshError, k + 1) := by
  induction k with
  | zero => exact ⟨rfl, rfl⟩
  | succ n ih =>
      refine ⟨?_, ?_⟩ <;>
        simp [List.replicate_succ, List.cons_append, refreshCachedRun, ih.1, ih.2]

/-! ## Claim C7 -/

/-- C7: the debounce compares timedelta.seconds, the seconds component after
whole days are removed, not total elapsed time.  With the last token refresh
at instant 0 and a credential-expired failure at instant 86410 (one day and
ten seconds later), the code computes 86410 mod 86400 = 10 < 30 and skips
re-authentication, although the real elapsed time 86410 s far exceeds the
30-second window. -/
theorem refresh_token_seconds_bug :
    (refresh_token_safely { last_refresh_time := some 0 } 86410).1 = false ∧
    timedeltaSeconds (86410 - 0) = 10 ∧ 86410 - 0 > 30 := by decide

/-! ## Claim C2 -/

/-- C2 counterexample: on a tracker already finalized as SUCCESS, a further
update_status call is not rejected: it overwrites last_status, appends to the
status history and moves completed_at, whereas the claim requires the call to
be rejected with the record unchanged. -/
theorem update_status_after_terminal_counterexample :
    (sampleFinishedTracker.update_status 10 "FAILED" none).last_status = some "FAILED" ∧
    (sampleFinishedTracker.update_status 10 "FAILED" none).status_history
      = [(5, "SUCCESS"), (10, "FAILED")] ∧
    (sampleFinishedTracker.update_status 10 "FAILED" none).completed_at = some 10 := by decide

/-- C2 (amended): an ActionRecord is created with status PENDING, and
update_status applies unconditionally: it sets last_status to the given
status, appends it to the status history, and sets completed_at exactly when
the new status is terminal; there is no guard rejecting a second transition
after a terminal state (single finalization is a discipline of the caller,
which invokes update_status once per poller, not of the data type). -/
theorem update_status_unconditional (t : ActionTracker) (now : Nat) (s : String)
    (e : Option String) :
    (t.update_status now s e).last_status = some s ∧
    (t.update_status now s e).status_history = t.status_history ++ [(now, s)] ∧
    (t.update_status now s e).completed_at
      = (if s ∈ terminalStatuses then some now else t.completed_at) ∧
    (mkActionTracker "a" "r" "c" "v" now).last_status = some "PENDING" := by
  cases e <;> simp [ActionTracker.update_status, mkActionTracker] <;> split_ifs <;> simp

/-! ## Claim C3 -/

/-- C3 counterexample: with the breaker OPEN since instant 0 and timeout 60,
can_execute at instant 60 (elapsed exactly equal to the timeout) returns
false, whereas the claim admits at elapsed ≥ timeout; and after the
transition to HALF_OPEN a second can_execute admits again, whereas the claim
says only one trial call may be admitted before the next record_success or
record_failure. -/
theorem can_execute_counterexample :
    (cbOpenAt0.can_execute 60).1 = false ∧
    ((cbOpenAt0.can_execute 61).1 = true ∧ (cbOpenAt0.can_execute 61).2.state = CBState.HALF_OPEN) ∧
    (((cbOpenAt0.can_execute 61).2.can_execute 61).1 = true ∧
      ((cbOpenAt0.can_execute 61).2.can_execute 61).2.state = CBState.HALF_OPEN) := by decide

/-- C3 (amended): can_execute returns true whenever the state is CLOSED or
HALF_OPEN (every call in HALF_OPEN is admitted, not just one); in OPEN it
returns true exactly when now − last_failure_at is strictly greater than the
timeout (default 60 s), at which moment the state becomes HALF_OPEN; the
state is unchanged in every other case, and record_success resets
failure_count to 0 and the state to CLOSED. -/
theorem can_execute_characterization (cb : CircuitBreaker) (now : Int) :
    ((cb.can_execute now).1 = true ↔
      cb.state = CBState.CLOSED ∨ cb.state = CBState.HALF_OPEN ∨
        (cb.state = CBState.OPEN ∧
          ∃ t, cb.last_failure_time = some t ∧ now - t > cb.timeout)) ∧
    ((cb.can_execute now).2 =
      if cb.state = CBState.OPEN ∧ (cb.can_execute now).1 = true then
        { cb with state := CBState.HALF_OPEN }
      else cb) ∧
    (cb.record_success.failure_count = 0 ∧ cb.record_success.state = CBState.CLOSED) := by
  obtain ⟨ft, tmo, fc, st, lft⟩ := cb
  cases st <;> cases lft <;>
    simp [CircuitBreaker.can_execute, CircuitBreaker.record_success]
  all_goals split_ifs <;> simp_all

/-! ## Claim C8 -/

/-- C8: whatever the poll outcome (check_action_status raising, the final
status publish raising, the except-branch publish raising, the follow-up
refresh failing), the finally block removes the tracker's action_id from the
active-action registry, so no action_id remains registered after the poller
terminates. -/
theorem poll_action_status_cleanup (reg : String → Option ActionTracker)
    (tracker : ActionTracker) (now : Nat) (env : PollEnv) :
    (poll_action_status reg tracker now env).1 tracker.action_id = none := by
  unfold poll_action_status
  cases env.checkStatus <;>
    split_ifs <;> simp [update_status_keeps_action_id]

/-! ## Claim C9 -/

/-- C9: once a refresh command passes the throttle check, handle_command
records the vehicle in the throttle ledger before the remote call and the
except branch does not roll the entry back, so the ledger records the command
instant regardless of the call outcome; consequently a second refresh for the
same vehicle within the minimum interval of a failed one is throttled with
the state unchanged. -/
theorem throttle_window_persists_after_failure (st : ThrottleState) (v : String)
    (t t' : Nat) (ok' : Bool) (hlt : t' - t < st.min_command_interval) :
    (handleAccept st v t false).state.last_command_time = setTime st.last_command_time v t ∧
    (handleAccept st v t false).outcome = HandleOutcome.errorPublished ∧
    (handleAccept st v t true).state = (handleAccept st v t false).state ∧
    List.lookup v (handleAccept st v t false).state.last_command_time = some t ∧
    handle_command (handleAccept st v t false).state v t' ok' =
      { state := (handleAccept st v t false).state, remoteCalled := false,
        outcome := HandleOutcome.throttled } := by
  refine ⟨rfl, rfl, rfl, lookup_setTime_self _ _ _, ?_⟩
  simp [handle_command, handleAccept, lookup_setTime_self, hlt]

/-- C9 witness: a refresh for veh1 accepted at instant 100 whose remote call
fails leaves the ledger entry at 100, so a second refresh at instant 102 is
throttled. -/
theorem throttle_window_persists_after_failure_witness :
    handle_command (handleAccept { last_command_time := [] } "veh1" 100 false).state "veh1" 102 true
      = { state := (handleAccept { last_command_time := [] } "veh1" 100 false).state,
          remoteCalled := false, outcome := HandleOutcome.throttled } :=
  (throttle_window_persists_after_failure { last_command_time := [] } "veh1" 100 102 true
    (by decide)).2.2.2.2

/-! ## Claim C4 -/

/-- C4 counterexample: with the throttle ledger recording an accepted refresh
for veh1 at instant 0, a valid refresh command arriving at instant 2 (inside
the 5-second window) is nevertheless placed on the refresh queue by
enqueue_command, which performs no throttle check, whereas the claim says a
command arriving inside the window is not enqueued. -/
theorem throttled_enqueue_counterexample :
    (2 : Nat) - 0 < 5 ∧
    List.lookup "veh1" qstVeh1.throttle.last_command_time = some 0 ∧
    (enqueue_command qstVeh1 "hyundai/veh1/commands/refresh" "cached").queue
      = [cmdCachedVeh1] := by decide

/-- C4 (amended): enqueue_command enqueues every command that parses,
regardless of the throttle ledger; the silent drop happens at dispatch time
in handle_command, which returns before any remote call and leaves the
state (in particular the ledger) unchanged when the per-vehicle minimum
interval (default 5 s) has not elapsed, so a throttled command does not
reset the window; the ledger is written only on the accepted path. -/
theorem throttle_drop_at_dispatch (qst : CommandQueueState) (topic payload : String)
    (cmd : RefreshCommand) (hparse : RefreshCommand.parse topic payload = Except.ok cmd)
    (st : ThrottleState) (v : String) (now t : Nat)
    (hlast : List.lookup v st.last_command_time = some t)
    (helapsed : now - t < st.min_command_interval) (refreshOk : Bool) :
    enqueue_command qst topic payload = { qst with queue := qst.queue ++ [cmd] } ∧
    handle_command st v now refreshOk =
      { state := st, remoteCalled := false, outcome := HandleOutcome.throttled } := by
  constructor
  · simp [enqueue_command, hparse]
  · simp [handle_command, hlast, helapsed]

/-- C4 witness: the command of the fixture parses, is enqueued, and the same
arrival two seconds after the recorded acceptance is throttled at dispatch
with the state unchanged. -/
theorem throttle_drop_at_dispatch_witness :
    enqueue_command qstVeh1 "hyundai/veh1/commands/refresh" "cached"
      = { qstVeh1 with queue := qstVeh1.queue ++ [cmdCachedVeh1] } ∧
    handle_command { last_command_time := [("veh1", 0)] } "veh1" 2 true
      = { state := { last_command_time := [("veh1", 0)] }, remoteCalled := false,
          outcome := HandleOutcome.throttled } :=
  throttle_drop_at_dispatch qstVeh1 "hyundai/veh1/commands/refresh" "cached" cmdCachedVeh1
    (by decide) { last_command_time := [("veh1", 0)] } "veh1" 2 0 (by decide) (by decide) true

/-! ## Claim C10 -/

/-- C10: for every string input _parse_action_status returns a member of the
closed set SUCCESS, FAILED, PENDING, TIMEOUT, UNKNOWN, matching the known
fragments case-insensitively by substring occurrence in the precedence order
SUCCESS/COMPLETE, then FAIL/ERROR, then PENDING/PROCESSING, then TIMEOUT, and
returning UNKNOWN exactly when no fragment occurs; being a total function it
never raises. -/
theorem parse_action_status_spec (s : String) :
    parse_action_status s ∈ ["SUCCESS", "FAILED", "PENDING", "TIMEOUT", "UNKNOWN"] ∧
    (parse_action_status s = "SUCCESS" ↔
      (ciOccurs "SUCCESS" s || ciOccurs "COMPLETE" s) = true) ∧
    (parse_action_status s = "FAILED" ↔
      ((ciOccurs "SUCCESS" s || ciOccurs "COMPLETE" s) = false ∧
       (ciOccurs "FAIL" s || ciOccurs "ERROR" s) = true)) ∧
    (parse_action_status s = "PENDING" ↔
      ((ciOccurs "SUCCESS" s || ciOccurs "COMPLETE" s) = false ∧
       (ciOccurs "FAIL" s || ciOccurs "ERROR" s) = false ∧
       (ciOccurs "PENDING" s || ciOccurs "PROCESSING" s) = true)) ∧
    (parse_action_status s = "TIMEOUT" ↔
      ((ciOccurs "SUCCESS" s || ciOccurs "COMPLETE" s) = false ∧
       (ciOccurs "FAIL" s || ciOccurs "ERROR" s) = false ∧
       (ciOccurs "PENDING" s || ciOccurs "PROCESSING" s) = false ∧
       ciOccurs "TIMEOUT" s = true)) ∧
    (parse_action_status s = "UNKNOWN" ↔
      ((ciOccurs "SUCCESS" s || ciOccurs "COMPLETE" s) = false ∧
       (ciOccurs "FAIL" s || ciOccurs "ERROR" s) = false ∧
       (ciOccurs "PENDING" s || ciOccurs "PROCESSING" s) = false ∧
       ciOccurs "TIMEOUT" s = false)) := by
  simp only [parse_action_status, ciOccurs]
  split_ifs with h1 h2 h3 h4 <;> simp_all <;>
    (try cases h1) <;> (try cases h2) <;> (try cases h3) <;> simp_all


/-! ## Claim C5 -/

theorem finishParse_ok (ct vid : List Char) (ma : Option Int) (cmd : RefreshCommand)
    (h : RefreshCommand.finishParse ct vid ma = Except.ok cmd) :
    cmd = { command_type := ⟨ct⟩, vehicle_id := ⟨vid⟩, max_age_seconds := ma } ∧
    (ct = "cached".data ∨ ct = "force".data ∨ ct = "smart".data) ∧
    (ct = "smart".data → ma ≠ none) := by
  unfold RefreshCommand.finishParse at h
  split_ifs at h with hA hB
  all_goals
    first
      | exact absurd h (fun hc => Except.noConfusion hc)
      | (injection h with h2
         refine ⟨h2.symm, ?_, ?_⟩
         · by_contra hc
           push_neg at hc
           exact hA hc
         · intro hs hma
           exact hB ⟨hs, hma⟩)

theorem parse_conclusions (ct vid : List Char) (ma : Option Int)
    (hct : ct = "cached".data ∨ ct = "force".data ∨ ct = "smart".data)
    (hsm : ct = "smart".data → ma ≠ none)
    (hsm2 : ma ≠ none → ct = "smart".data)
    (hbound : ∀ a, ma = some a → 1 ≤ a ∧ a ≤ 604800)
    (hve : vid ≠ [])
    (halnum : pyIsAlnum (List.filter (fun c => c != '_' && c != '-') vid) = true) :
    (RefreshCommand.command_type ⟨⟨ct⟩, ⟨vid⟩, ma⟩ = "cached" ∨
      RefreshCommand.command_type ⟨⟨ct⟩, ⟨vid⟩, ma⟩ = "force" ∨
      RefreshCommand.command_type ⟨⟨ct⟩, ⟨vid⟩, ma⟩ = "smart") ∧
    (RefreshCommand.command_type ⟨⟨ct⟩, ⟨vid⟩, ma⟩ = "smart" ↔
      RefreshCommand.max_age_seconds ⟨⟨ct⟩, ⟨vid⟩, ma⟩ ≠ none) ∧
    (∀ a, RefreshCommand.max_age_seconds ⟨⟨ct⟩, ⟨vid⟩, ma⟩ = some a →
      1 ≤ a ∧ a ≤ 604800) ∧
    RefreshCommand.vehicle_id ⟨⟨ct⟩, ⟨vid⟩, ma⟩ ≠ "" ∧
    pyIsAlnum ((RefreshCommand.vehicle_id ⟨⟨ct⟩, ⟨vid⟩, ma⟩).data.filter
      (fun c => c != '_' && c != '-')) = true := by
  refine ⟨?_, ?_, hbound, ?_, halnum⟩
  · rcases hct with hc | hc | hc <;> subst hc
    · left; rfl
    · right; left; rfl
    · right; right; rfl
  · constructor
    · intro hs
      exact hsm (congrArg String.data hs)
    · intro hm
      rw [hsm2 hm]
  · intro hc
    exact hve (congrArg String.data hc)

theorem refresh_parse_sound (topic payload : String) (cmd : RefreshCommand)
    (h : RefreshCommand.parse topic payload = Except.ok cmd) :
    (cmd.command_type = "cached" ∨ cmd.command_type = "force" ∨ cmd.command_type = "smart") ∧
    (cmd.command_type = "smart" ↔ cmd.max_age_seconds ≠ none) ∧
    (∀ a, cmd.max_age_seconds = some a → 1 ≤ a ∧ a ≤ 604800) ∧
    cmd.vehicle_id ≠ "" ∧
    pyIsAlnum (cmd.vehicle_id.data.filter (fun c => c != '_' && c != '-')) = true := by
  unfold RefreshCommand.parse at h
  simp only [] at h
  by_cases ht : topic = ""
  · rw [if_pos ht] at h; exact absurd h (fun hc => Except.noConfusion hc)
  rw [if_neg ht] at h
  by_cases hpl : payload = ""
  · rw [if_pos hpl] at h; exact absurd h (fun hc => Except.noConfusion hc)
  rw [if_neg hpl] at h
  cases hv : (pySplit '/' topic.data)[1]? with
  | none =>
      rw [hv] at h
      exact absurd h (fun hc => Except.noConfusion hc)
  | some vid =>
      rw [hv] at h
      dsimp only at h
      by_cases hve : vid = []
      · rw [if_pos hve] at h; exact absurd h (fun hc => Except.noConfusion hc)
      rw [if_neg hve] at h
      by_cases hal : (!pyIsAlnum (List.filter (fun c => c != '_' && c != '-') vid)) = true
      · rw [if_pos hal] at h; exact absurd h (fun hc => Except.noConfusion hc)
      rw [if_neg hal] at h
      have halnum : pyIsAlnum (List.filter (fun c => c != '_' && c != '-') vid) = true := by
        simpa using hal
      by_cases hcolon : ((pyStrip payload.data).any fun c => decide (c = ':')) = true
      · rw [if_pos hcolon] at h
        by_cases hsmart : pyStrip (splitOnce ':' (pyStrip payload.data)).1 = "smart".data
        · rw [if_pos hsmart] at h
          cases hpi : pyInt (splitOnce ':' (pyStrip payload.data)).2 with
          | none =>
              rw [hpi] at h
              exact absurd h (fun hc => Except.noConfusion hc)
          | some ma =>
              rw [hpi] at h
              dsimp only at h
              by_cases hrange : ma < 1 ∨ ma > 604800
              · rw [if_pos hrange] at h; exact absurd h (fun hc => Except.noConfusion hc)
              rw [if_neg hrange] at h
              push_neg at hrange
              obtain ⟨hcmd, hct, hsm⟩ := finishParse_ok _ _ _ _ h
              subst hcmd
              exact parse_conclusions _ _ _ hct hsm (fun _ => hsmart)
                (fun a ha => by cases ha; exact ⟨hrange.1, hrange.2⟩) hve halnum
        · rw [if_neg hsmart] at h
          obtain ⟨hcmd, hct, hsm⟩ := finishParse_ok _ _ _ _ h
          subst hcmd
          exact parse_conclusions _ _ _ hct hsm
            (fun hm => absurd rfl hm) (fun a ha => absurd ha (by simp)) hve halnum
      · rw [if_neg hcolon] at h
        obtain ⟨hcmd, hct, hsm⟩ := finishParse_ok _ _ _ _ h
        subst hcmd
        exact parse_conclusions _ _ _ hct hsm
          (fun hm => absurd rfl hm) (fun a ha => absurd ha (by simp)) hve halnum

/-- C5 counterexample: the topic "x/veh" has no commands/refresh segments and
the payload "cached:junk" carries an extra ":<param>" after "cached"; the
claim requires both to yield a ValidationError, yet parse accepts the pair
and returns a cached command for vehicle veh. -/
theorem refresh_parse_counterexample :
    RefreshCommand.parse "x/veh" "cached:junk"
      = Except.ok { command_type := "cached", vehicle_id := "veh",
                    max_age_seconds := none } := by decide

/-- C5 (amended): parse validates only the second "/"-segment of the topic
(it must exist, be non-empty, and consist of alphanumerics, underscore and
hyphen after which the rest of the topic, including any commands/refresh
suffix, is ignored), and the mode token before the first ":" of the stripped
payload; the accepted modes are exactly cached, force and smart, where for
cached and force any ":<param>" suffix is ignored, and smart requires an
integer parameter in [1, 604800] (non-integer or out-of-range parameters,
unknown modes, empty topic or payload, and missing or ill-formed vehicle ids
are CommandErrors); every accepted command carries a valid mode, a max_age
exactly when the mode is smart, a max_age within bounds, and a non-empty
well-formed vehicle id. -/
theorem refresh_parse_spec :
    (∀ (topic payload : String) (cmd : RefreshCommand),
        RefreshCommand.parse topic payload = Except.ok cmd →
        (cmd.command_type = "cached" ∨ cmd.command_type = "force" ∨
          cmd.command_type = "smart") ∧
        (cmd.command_type = "smart" ↔ cmd.max_age_seconds ≠ none) ∧
        (∀ a, cmd.max_age_seconds = some a → 1 ≤ a ∧ a ≤ 604800) ∧
        cmd.vehicle_id ≠ "" ∧
        pyIsAlnum (cmd.vehicle_id.data.filter (fun c => c != '_' && c != '-')) = true) ∧
    RefreshCommand.parse "hyundai/veh1/commands/refresh" "cached"
      = Except.ok { command_type := "cached", vehicle_id := "veh1",
                    max_age_seconds := none } ∧
    RefreshCommand.parse "hyundai/veh1/commands/refresh" "force"
      = Except.ok { command_type := "force", vehicle_id := "veh1",
                    max_age_seconds := none } ∧
    RefreshCommand.parse "hyundai/veh1/commands/refresh" "smart:300" = Except.ok cmdSmart300 ∧
    RefreshCommand.parse "" "cached"
      = Except.error "Invalid topic: must be a non-empty string" ∧
    RefreshCommand.parse "hyundai/veh!/commands/refresh" "cached"
      = Except.error "Invalid vehicle_id format" ∧
    RefreshCommand.parse "hyundai/veh1/commands/refresh" "bogus"
      = Except.error "Invalid command type" ∧
    RefreshCommand.parse "hyundai/veh1/commands/refresh" "smart:abc"
      = Except.error "Invalid max_age parameter for smart command" ∧
    RefreshCommand.parse "hyundai/veh1/commands/refresh" "smart:0"
      = Except.error "Invalid max_age value" ∧
    RefreshCommand.parse "hyundai/veh1/commands/refresh" "smart:604801"
      = Except.error "Invalid max_age value" ∧
    RefreshCommand.parse "hyundai/veh1/commands/refresh" "smart"
      = Except.error "Smart command requires max_age parameter" ∧
    RefreshCommand.parse "x/veh" "force:whatever"
      = Except.ok { command_type := "force", vehicle_id := "veh",
                    max_age_seconds := none } :=
  ⟨refresh_parse_sound, by decide⟩

/-- C5 witness: the soundness part of refresh_parse_spec applied to the
concrete accepted input smart:300. -/
theorem refresh_parse_spec_witness :
    cmdSmart300.command_type = "cached" ∨ cmdSmart300.command_type = "force" ∨
      cmdSmart300.command_type = "smart" :=
  (refresh_parse_spec.1 "hyundai/veh1/commands/refresh" "smart:300" cmdSmart300 (by decide)).1

/-! ## Claim C6 -/

/-- C6 counterexample: a lock command whose JSON payload carries the unknown
action "frobnicate" is accepted by ControlCommand.parse (which never inspects
the action field) and is inserted into the control queue by
enqueue_control_command, whereas the claim says such a command yields a
ValidationError and is discarded without queue insertion. -/
theorem control_parse_counterexample :
    ControlCommand.parse "hyundai" "hyundai/veh1/commands/lock"
        (some [("action", PyValue.str "frobnicate")]) = Except.ok cmdLockBadAction ∧
    enqueue_control_command [] "hyundai" "hyundai/veh1/commands/lock"
        (some [("action", PyValue.str "frobnicate")]) = [cmdLockBadAction] := by decide

/-- C6 (amended): ControlCommand.parse validates only the topic shape, JSON
well-formedness and the command-type segment, copying the payload unchecked,
so a command with an unknown or missing action is enqueued; the action field
is validated at dispatch time by the per-type from_control_command
conversion inside _execute_command, whose CommandError is caught by
handle_control_command and published as an error status, so the command
never reaches the remote API (shown both in general, and concretely for a
lock command with an unknown action and with no action at all). -/
theorem control_action_checked_at_dispatch :
    (∀ (queue : List ControlCommand) (base topic : String)
        (pd : List (String × PyValue)) (cmd : ControlCommand),
        ControlCommand.parse base topic (some pd) = Except.ok cmd →
        cmd.payload = pd ∧
        enqueue_control_command queue base topic (some pd) = queue ++ [cmd]) ∧
    (∀ (cmd : ControlCommand) (e : String),
        execute_command cmd = Except.error e →
        handle_control_command cmd = ControlOutcome.rejected e) ∧
    LockCommand.from_control_command cmdLockBadAction = Except.error "Invalid lock action" ∧
    LockCommand.from_control_command cmdLockNoAction = Except.error "Invalid lock action" ∧
    execute_command cmdLockBadAction = Except.error "Invalid lock action" ∧
    execute_command cmdLockNoAction = Except.error "Invalid lock action" ∧
    handle_control_command cmdLockBadAction = ControlOutcome.rejected "Invalid lock action" := by
  refine ⟨?_, ?_, by decide, by decide, by decide, by decide, by decide⟩
  · intro queue base topic pd cmd h
    have hq : enqueue_control_command queue base topic (some pd) = queue ++ [cmd] := by
      unfold enqueue_control_command
      rw [h]
    refine ⟨?_, hq⟩
    unfold ControlCommand.parse at h
    cases hpt : parse_command_topic base topic with
    | none => rw [hpt] at h; exact absurd h (fun hc => Except.noConfusion hc)
    | some p =>
        obtain ⟨vid, ct⟩ := p
        rw [hpt] at h
        dsimp only at h
        split_ifs at h with hmem
        all_goals
          first
            | exact absurd h (fun hc => Except.noConfusion hc)
            | (injection h with h2
               rw [← h2])
  · intro cmd e h
    unfold handle_control_command
    rw [h]

/-- C6 witness: the dispatch-time rejection applied to the concrete lock
command with the unknown action. -/
theorem control_action_checked_at_dispatch_witness :
    handle_control_command cmdLockBadAction = ControlOutcome.rejected "Invalid lock action" :=
  control_action_checked_at_dispatch.2.1 cmdLockBadAction "Invalid lock action" (by decide)
